import Mathlib

/- Verification of the Blackout card-game engine
   (src/scripts/cards.py and src/scripts/blackout.py).

   Conventions of the shallow embedding: Python ints are Lean Int; a Python
   method that can raise is embedded as a function returning the mutated
   object together with an `Except PyError` outcome, so that mutations
   performed before an exception is raised remain visible in the returned
   state, exactly as they do on a Python object. Instance attributes that
   are only created by a later assignment are embedded as `Option` fields
   whose `none` value means "attribute absent": reading such a field while
   it is `none` raises `AttributeError`. -/

/-- Kinds of Python runtime exceptions that the embedded code can raise. -/
inductive PyError
  | assertError
  | attrError
  | keyError
  | indexError
  | zeroDivisionError
deriving DecidableEq

/-- Embedding of cards.py, class Suit: the four singleton suit instances. -/
inductive Suit
  | Spade
  | Heart
  | Club
  | Diamond
deriving DecidableEq, Fintype

/-- Embedding of cards.py, class Rank: the wrapped integer rank (2..14). -/
structure Rank where
  rank : Nat
deriving DecidableEq

/-- Embedding of cards.py, Rank.__gt__: true iff self.rank > other.rank. -/
def Rank.gt (self other : Rank) : Bool :=
  decide (other.rank < self.rank)

/-- Embedding of cards.py, class Card: a suit together with a rank. -/
structure Card where
  Suit : Suit
  Rank : Rank
deriving DecidableEq

/-- Embedding of the mutable trump/led flags that cards.py stores on the four
shared Suit singletons (Suit.trump and Suit.led): two Boolean-valued maps. -/
structure SuitState where
  trump : Suit → Bool
  led : Suit → Bool

/-- Embedding of cards.py, Card.__gt__. When the two suits differ the method
first asserts that the suits are not both trump and not both led; it then
compares ranks for equal suits, otherwise gives precedence to the trump suit,
then to the led suit, and otherwise returns False. -/
def Card.gt (st : SuitState) (self other : Card) : Except PyError Bool :=
  if self.Suit ≠ other.Suit ∧ st.trump self.Suit = true ∧ st.trump other.Suit = true then
    Except.error PyError.assertError
  else if self.Suit ≠ other.Suit ∧ st.led self.Suit = true ∧ st.led other.Suit = true then
    Except.error PyError.assertError
  else if self.Suit = other.Suit then
    Except.ok (Rank.gt self.Rank other.Rank)
  else if st.trump self.Suit || st.trump other.Suit then
    Except.ok (st.trump self.Suit)
  else if st.led self.Suit || st.led other.Suit then
    Except.ok (st.led self.Suit)
  else
    Except.ok false

/-- At most one suit carries the trump flag. -/
abbrev atMostOneTrump (st : SuitState) : Prop :=
  ∀ s t : Suit, st.trump s = true → st.trump t = true → s = t

/-- At most one suit carries the led flag. -/
abbrev atMostOneLed (st : SuitState) : Prop :=
  ∀ s t : Suit, st.led s = true → st.led t = true → s = t

/-- Card a takes precedence over card b under the given suit flags. -/
def beats (st : SuitState) (a b : Card) : Prop :=
  Card.gt st a b = Except.ok true

/-- The Boolean value Card.__gt__ returns once its two assertions pass. -/
def gtPure (st : SuitState) (a b : Card) : Bool :=
  if a.Suit = b.Suit then Rank.gt a.Rank b.Rank
  else if st.trump a.Suit || st.trump b.Suit then st.trump a.Suit
  else if st.led a.Suit || st.led b.Suit then st.led a.Suit
  else false

/-- Under the at-most-one-trump and at-most-one-led invariants the assertions
in Card.__gt__ cannot fire, and the comparison returns gtPure. -/
theorem Card.gt_eq (st : SuitState) (a b : Card)
    (hT : atMostOneTrump st) (hL : atMostOneLed st) :
    Card.gt st a b = Except.ok (gtPure st a b) := by
  by_cases hs : a.Suit = b.Suit
  · simp [Card.gt, gtPure, hs]
  · have h1 : ¬(st.trump a.Suit = true ∧ st.trump b.Suit = true) := by
      rintro ⟨u, v⟩
      exact hs (hT _ _ u v)
    have h2 : ¬(st.led a.Suit = true ∧ st.led b.Suit = true) := by
      rintro ⟨u, v⟩
      exact hs (hL _ _ u v)
    rw [Card.gt, if_neg (by tauto), if_neg (by tauto), if_neg hs]
    rw [gtPure, if_neg hs]
    by_cases h3 : (st.trump a.Suit || st.trump b.Suit) = true
    · rw [if_pos h3, if_pos h3]
    · rw [if_neg h3, if_neg h3]
      by_cases h4 : (st.led a.Suit || st.led b.Suit) = true
      · rw [if_pos h4, if_pos h4]
      · rw [if_neg h4, if_neg h4]

/-- Claim C1: for distinct cards a, b compared under a context in which at most
one suit is trump and at most one suit is led, Card.__gt__ realises the
precedence rules: same suit is decided by rank; otherwise, if exactly one of
the two suits is trump, that suit's card wins; otherwise, if exactly one of the
two suits is led, that suit's card wins; otherwise neither card beats the
other. -/
theorem card_gt_spec (st : SuitState) (a b : Card)
    (hT : atMostOneTrump st) (hL : atMostOneLed st) (hab : a ≠ b) :
    (a.Suit = b.Suit → (beats st a b ↔ b.Rank.rank < a.Rank.rank))
    ∧ (a.Suit ≠ b.Suit → st.trump a.Suit ≠ st.trump b.Suit →
        (beats st a b ↔ st.trump a.Suit = true))
    ∧ (a.Suit ≠ b.Suit → st.trump a.Suit = st.trump b.Suit →
        st.led a.Suit ≠ st.led b.Suit →
        (beats st a b ↔ st.led a.Suit = true))
    ∧ (a.Suit ≠ b.Suit → st.trump a.Suit = st.trump b.Suit →
        st.led a.Suit = st.led b.Suit →
        ¬ beats st a b ∧ ¬ beats st b a) := by
  have e1 : beats st a b ↔ gtPure st a b = true := by
    rw [beats, Card.gt_eq st a b hT hL]
    exact ⟨fun h => by injection h, fun h => by rw [h]⟩
  have e2 : beats st b a ↔ gtPure st b a = true := by
    rw [beats, Card.gt_eq st b a hT hL]
    exact ⟨fun h => by injection h, fun h => by rw [h]⟩
  refine ⟨?_, ?_, ?_, ?_⟩
  · intro hs
    rw [e1, gtPure, if_pos hs, Rank.gt]
    simp
  · intro hs hne
    rw [e1, gtPure, if_neg hs]
    cases hta : st.trump a.Suit <;> cases htb : st.trump b.Suit <;> simp_all
  · intro hs hte hle
    have hta : st.trump a.Suit = false := by
      cases h1 : st.trump a.Suit
      · rfl
      · have h2 : st.trump b.Suit = true := by rw [← hte]; exact h1
        exact absurd (hT _ _ h1 h2) hs
    have htb : st.trump b.Suit = false := by rw [← hte]; exact hta
    rw [e1, gtPure, if_neg hs, hta, htb]
    cases hla : st.led a.Suit <;> cases hlb : st.led b.Suit <;> simp_all
  · intro hs hte hle
    have hta : st.trump a.Suit = false := by
      cases h1 : st.trump a.Suit
      · rfl
      · have h2 : st.trump b.Suit = true := by rw [← hte]; exact h1
        exact absurd (hT _ _ h1 h2) hs
    have htb : st.trump b.Suit = false := by rw [← hte]; exact hta
    have hla : st.led a.Suit = false := by
      cases h1 : st.led a.Suit
      · rfl
      · have h2 : st.led b.Suit = true := by rw [← hle]; exact h1
        exact absurd (hL _ _ h1 h2) hs
    have hlb : st.led b.Suit = false := by rw [← hle]; exact hla
    constructor
    · rw [e1, gtPure, if_neg hs, hta, htb, hla, hlb]
      simp
    · rw [e2, gtPure, if_neg (Ne.symm hs), htb, hta, hlb, hla]
      simp

/-- Concrete context used by the precedence witnesses: clubs are trump and
spades were led. -/
def ctxW : SuitState :=
  { trump := fun s => decide (s = Suit.Club), led := fun s => decide (s = Suit.Spade) }

/-- Concrete card: three of clubs. -/
def cW1 : Card :=
  { Suit := Suit.Club, Rank := { rank := 3 } }

/-- Concrete card: queen of spades. -/
def cW2 : Card :=
  { Suit := Suit.Spade, Rank := { rank := 12 } }

/-- Witness for card_gt_spec at a concrete context and pair of cards. -/
theorem card_gt_spec_witness :
    atMostOneTrump ctxW ∧ atMostOneLed ctxW ∧ cW1 ≠ cW2 ∧
    ((cW1.Suit = cW2.Suit → (beats ctxW cW1 cW2 ↔ cW2.Rank.rank < cW1.Rank.rank))
     ∧ (cW1.Suit ≠ cW2.Suit → ctxW.trump cW1.Suit ≠ ctxW.trump cW2.Suit →
         (beats ctxW cW1 cW2 ↔ ctxW.trump cW1.Suit = true))
     ∧ (cW1.Suit ≠ cW2.Suit → ctxW.trump cW1.Suit = ctxW.trump cW2.Suit →
         ctxW.led cW1.Suit ≠ ctxW.led cW2.Suit →
         (beats ctxW cW1 cW2 ↔ ctxW.led cW1.Suit = true))
     ∧ (cW1.Suit ≠ cW2.Suit → ctxW.trump cW1.Suit = ctxW.trump cW2.Suit →
         ctxW.led cW1.Suit = ctxW.led cW2.Suit →
         ¬ beats ctxW cW1 cW2 ∧ ¬ beats ctxW cW2 cW1)) :=
  ⟨by decide, by decide, by decide,
    card_gt_spec ctxW cW1 cW2 (by decide) (by decide) (by decide)⟩

/-- Claim C9: the card-precedence comparison is antisymmetric: for distinct
cards under a context with at most one trump suit and at most one led suit,
a and b never both beat each other. -/
theorem card_gt_antisymm (st : SuitState) (a b : Card)
    (hT : atMostOneTrump st) (hL : atMostOneLed st) (hab : a ≠ b) :
    ¬ (beats st a b ∧ beats st b a) := by
  rintro ⟨h1, h2⟩
  have h1' : (Except.ok (gtPure st a b) : Except PyError Bool) = Except.ok true := by
    rw [← Card.gt_eq st a b hT hL]; exact h1
  have h2' : (Except.ok (gtPure st b a) : Except PyError Bool) = Except.ok true := by
    rw [← Card.gt_eq st b a hT hL]; exact h2
  have g1 : gtPure st a b = true := by injection h1'
  have g2 : gtPure st b a = true := by injection h2'
  by_cases hs : a.Suit = b.Suit
  · rw [gtPure, if_pos hs, Rank.gt] at g1
    rw [gtPure, if_pos hs.symm, Rank.gt] at g2
    simp at g1 g2
    omega
  · have h3 : ¬(st.trump a.Suit = true ∧ st.trump b.Suit = true) := by
      rintro ⟨u, v⟩
      exact hs (hT _ _ u v)
    have h4 : ¬(st.led a.Suit = true ∧ st.led b.Suit = true) := by
      rintro ⟨u, v⟩
      exact hs (hL _ _ u v)
    rw [gtPure, if_neg hs] at g1
    rw [gtPure, if_neg (Ne.symm hs)] at g2
    cases hta : st.trump a.Suit <;> cases htb : st.trump b.Suit <;>
      cases hla : st.led a.Suit <;> cases hlb : st.led b.Suit <;> simp_all

/-- Concrete card: seven of hearts. -/
def cW3 : Card :=
  { Suit := Suit.Heart, Rank := { rank := 7 } }

/-- Witness for card_gt_antisymm at a concrete context and pair of cards. -/
theorem card_gt_antisymm_witness :
    atMostOneTrump ctxW ∧ atMostOneLed ctxW ∧ cW1 ≠ cW3 ∧
    ¬ (beats ctxW cW1 cW3 ∧ beats ctxW cW3 cW1) :=
  ⟨by decide, by decide, by decide,
    card_gt_antisymm ctxW cW1 cW3 (by decide) (by decide) (by decide)⟩

/-- Embedding of the per-player dict built in Blackout.__init__: the keys
hand, bids, tricks and points are present from the start; the key bid is only
created when Blackout.Bid assigns it, so it is an Option whose none value
means the key is absent (reading it then raises KeyError). Hands store integer
deck indices, as in the source. -/
structure PlayerRec where
  hand : List Int
  bids : List Int
  tricks : List Int
  points : List Int
  bid : Option Int
deriving DecidableEq

/-- Python list indexing: a nonnegative index counts from the front and must be
below the length; a negative index counts from the back. none means the index
is out of range (IndexError). -/
def pyIdx (len : Nat) (i : Int) : Option Nat :=
  if 0 ≤ i then (if i < (len : Int) then some i.toNat else none)
  else (if 0 ≤ i + (len : Int) then some (i + (len : Int)).toNat else none)

/-- Python list read l[i]. -/
def pyGet {α : Type} (l : List α) (i : Int) : Option α :=
  (pyIdx l.length i).bind fun j => l.get? j

/-- Python list write l[i] = x. -/
def pySet {α : Type} (l : List α) (i : Int) (x : α) : Option (List α) :=
  (pyIdx l.length i).map fun j => l.set j x

/-- Embedding of blackout.py, class Blackout: the game object. The fields
TrumpCard, trump, ledSuit and led model instance attributes that only come
into existence when some method assigns them (none = attribute absent, so a
read raises AttributeError). The attribute led is read by postRound but is
never assigned anywhere in the class. suitState models the class-level
trump/led flags living on the shared Suit singletons of cards.py. -/
structure Blackout where
  numPlayers : Int
  maxTricks : Int
  Round : Int
  Dealer : Int
  Bidder : Int
  Current : Int
  Leader : Int
  numTricks : Int
  currentTrick : List (Option Int)
  Deck : List Card
  Player : List PlayerRec
  TrumpCard : Option Card
  trump : Option Suit
  ledSuit : Option Suit
  led : Option Suit
  suitState : SuitState

/-- The 52-card deck built in Blackout.__init__: suits in source order Spade,
Heart, Club, Diamond, and within each suit the ranks 2..14 (Two up to Ace). -/
def deckList : List Card :=
  [Suit.Spade, Suit.Heart, Suit.Club, Suit.Diamond].flatMap fun s =>
    (List.range 13).map fun i => { Suit := s, Rank := { rank := i + 2 } }

/-- Embedding of Blackout.__init__. It asserts 0 < maxTricks < 14, clamps
maxTricks to 52 / numPlayers (Python 2 integer division) when
numPlayers * maxTricks > 52, and initialises the round state: round 1, dealer
0, bidder, current player and leader 1, one trick, currentTrick =
list(range(numPlayers)) with entries 0 and -1 overwritten by None (an
IndexError for numPlayers = 0). The suit flags start cleared in a fresh
interpreter. There is no validation of numPlayers. -/
def Blackout.init (numPlayers maxTricks : Int) : Except PyError Blackout :=
  if 0 < maxTricks ∧ maxTricks < 14 then
    let mt := if numPlayers * maxTricks > 52 then 52 / numPlayers else maxTricks
    let ct0 : List (Option Int) := (List.range numPlayers.toNat).map fun i => some (Int.ofNat i)
    match pySet ct0 0 none with
    | none => Except.error PyError.indexError
    | some ct1 =>
      match pySet ct1 (-1) none with
      | none => Except.error PyError.indexError
      | some ct2 =>
        Except.ok
          { numPlayers := numPlayers, maxTricks := mt, Round := 1, Dealer := 0,
            Bidder := 1, Current := 1, Leader := 1, numTricks := 1,
            currentTrick := ct2, Deck := deckList,
            Player := List.replicate numPlayers.toNat
              { hand := [], bids := [], tricks := [], points := [], bid := none },
            TrumpCard := none, trump := none, ledSuit := none, led := none,
            suitState := { trump := fun _ => false, led := fun _ => false } }
  else Except.error PyError.assertError

/-- Embedding of Blackout._circInc: (num + 1) % numPlayers. Lean's Int emod
agrees with Python's % for the positive moduli of constructed games; the
Python ZeroDivisionError for numPlayers = 0 is unreachable because the
constructor rejects numPlayers = 0 with an IndexError. -/
def Blackout.circInc (g : Blackout) (num : Int) : Int :=
  (num + 1) % g.numPlayers

/-- Embedding of circGen(total, start) from blackout.py: after asserting
start > -1 it reduces start modulo total and yields the total values
(ii + start) % total for ii in range(total). Python raises ZeroDivisionError
at start % total when total = 0. -/
def circGen (total start : Int) : Except PyError (List Int) :=
  if start > -1 then
    if total = 0 then Except.error PyError.zeroDivisionError
    else
      Except.ok ((List.range total.toNat).map fun ii => ((ii : Int) + start % total) % total)
  else Except.error PyError.assertError

/-- Modelled from the spec: Blackout.Deal calls self.clearRound(), but no
clearRound method is defined anywhere in the repository. Per the spec
(section 3, lifecycles: player hand and bid fields are cleared/reset each
round) it resets the per-round player state, emptying every player's hand. -/
def Blackout.clearRound (g : Blackout) : Blackout :=
  { g with Player := g.Player.map fun p => { p with hand := [] } }

/-- The dealing loop of Blackout.Deal: for each player id produced by the
circGen iteration, append shuffled[index] to that player's hand and advance
index. The final index and the first raised error (if any) are returned
together with the mutated game. -/
def dealCards (shuffled : List Int) : List Int → Blackout → Int → Blackout × Int × Option PyError
  | [], g, index => (g, index, none)
  | player :: rest, g, index =>
    match pyGet g.Player player with
    | none => (g, index, some PyError.indexError)
    | some pr =>
      match pyGet shuffled index with
      | none => (g, index, some PyError.indexError)
      | some c =>
        match pySet g.Player player { pr with hand := pr.hand ++ [c] } with
        | none => (g, index, some PyError.indexError)
        | some ps => dealCards shuffled rest { g with Player := ps } (index + 1)

/-- Embedding of Blackout.Deal. The injected randomness is the shuffle
function applied to range(51) (fifty-one indices 0..50, although the source
comment claims 52). The source then calls self.clearRound() (a method missing
from the repository, modelled from the spec above) and iterates, for
numTricks circuits, over circGen(self.Dealer + 1, self.numPlayers) - note
that circGen is declared circGen(total, start), so the two arguments are
passed swapped. The next card indexed by shuffled becomes the trump card, its
suit is stored in self.trump and that suit's trump flag is set. -/
def Blackout.Deal (g0 : Blackout) (shuffle : List Int → List Int) :
    Blackout × Except PyError Unit :=
  let shuffled := shuffle ((List.range 51).map fun n => Int.ofNat n)
  let g := g0.clearRound
  match circGen (g.Dealer + 1) g.numPlayers with
  | Except.error e => (g, Except.error e)
  | Except.ok circ =>
    match dealCards shuffled ((List.range g.numTricks.toNat).flatMap fun _ => circ) g 0 with
    | (g1, _, some e) => (g1, Except.error e)
    | (g1, index, none) =>
      match pyGet shuffled index with
      | none => (g1, Except.error PyError.indexError)
      | some tIdx =>
        match pyGet g1.Deck tIdx with
        | none => (g1, Except.error PyError.indexError)
        | some tc =>
          ({ g1 with
              TrumpCard := some tc
              trump := some tc.Suit
              suitState := { g1.suitState with
                trump := fun s => if s = tc.Suit then true else g1.suitState.trump s } },
           Except.ok ())

/-- The totalBids loop of Blackout.Bid: sum self.Player[ii]["bid"] for ii in
range(numPlayers); reading a bid key that was never assigned raises KeyError,
and an ii beyond the player list raises IndexError. -/
def bidTotalGo (g : Blackout) : List Nat → Int → Except PyError Int
  | [], acc => Except.ok acc
  | ii :: rest, acc =>
    match g.Player.get? ii with
    | none => Except.error PyError.indexError
    | some p =>
      match p.bid with
      | none => Except.error PyError.keyError
      | some b => bidTotalGo g rest (acc + b)

/-- Sum of all recorded bids, as computed by the loop in Blackout.Bid. -/
def bidTotal (g : Blackout) : Except PyError Int :=
  bidTotalGo g (List.range g.numPlayers.toNat) 0

/-- Embedding of Blackout.Bid. Order of checks as in the source: assert the
player id range, return False for a bid outside [0, numTricks], assert the
turn order, then record the bid in the player record. When the bidder is the
dealer the source sums all bids and compares the total against self.numTrics,
a misspelling of numTricks: that attribute is never assigned, so the
comparison raises AttributeError - after the bid has already been stored.
Otherwise the bidder advances and an overrun past the leader is asserted. -/
def Blackout.Bid (g : Blackout) (player bid : Int) : Blackout × Except PyError Bool :=
  if 0 ≤ player ∧ player < g.numPlayers then
    if bid < 0 ∨ bid > g.numTricks then (g, Except.ok false)
    else if player = g.Bidder then
      match pyGet g.Player player with
      | none => (g, Except.error PyError.indexError)
      | some pr =>
        match pySet g.Player player { pr with bid := some bid } with
        | none => (g, Except.error PyError.indexError)
        | some ps =>
          let g1 := { g with Player := ps }
          if g1.Bidder = g1.Dealer then
            match bidTotal g1 with
            | Except.error e => (g1, Except.error e)
            | Except.ok _ => (g1, Except.error PyError.attrError)
          else
            let g2 := { g1 with Bidder := g1.circInc g1.Bidder }
            if g2.Bidder = g2.Leader then (g2, Except.error PyError.assertError)
            else (g2, Except.ok true)
    else (g, Except.error PyError.assertError)
  else (g, Except.error PyError.assertError)

/-- The follow-suit loop of Blackout.Move: for item in the player's hand the
source reads item.suit, but hand entries are integer deck indices (and even
Card objects expose the attribute Suit, capitalised), so the first iteration
raises AttributeError; only an empty hand skips the loop body. -/
def followSuitScan (hand : List Int) : Option PyError :=
  match hand with
  | [] => none
  | _ :: _ => some PyError.attrError

/-- The accepting tail of Blackout.Move: advance self.Current, then store the
popped card index in currentTrick[player] and remove it from the hand. -/
def moveFinish (g : Blackout) (player card_index : Int) : Blackout × Except PyError Bool :=
  let g1 := { g with Current := g.circInc g.Current }
  match pyGet g1.Player player with
  | none => (g1, Except.error PyError.indexError)
  | some pr =>
    match pyGet pr.hand card_index with
    | none => (g1, Except.error PyError.indexError)
    | some ci =>
      match pySet g1.currentTrick player (some ci) with
      | none => (g1, Except.error PyError.indexError)
      | some ct =>
        let g2 := { g1 with currentTrick := ct }
        match pySet g2.Player player { pr with hand := pr.hand.eraseIdx card_index.toNat } with
        | none => (g2, Except.error PyError.indexError)
        | some ps => ({ g2 with Player := ps }, Except.ok true)

/-- Embedding of Blackout.Move. Asserts the turn order, a nonempty hand and
the card index bounds; resolves the chosen card through the deck. A leader
asserts currentTrick[Leader] is None, then sets the led flag of the card's
suit and records self.ledSuit. A non-leader playing a card whose suit is not
the led suit enters the follow-suit loop, which raises AttributeError as the
hand holds integers (see followSuitScan); a card of the led suit is accepted
directly. -/
def Blackout.Move (g : Blackout) (player card_index : Int) : Blackout × Except PyError Bool :=
  if player = g.Current then
    match pyGet g.Player player with
    | none => (g, Except.error PyError.indexError)
    | some pr =>
      if pr.hand = [] then (g, Except.error PyError.assertError)
      else if 0 ≤ card_index ∧ card_index < (pr.hand.length : Int) then
        match pyGet pr.hand card_index with
        | none => (g, Except.error PyError.indexError)
        | some ci =>
          match pyGet g.Deck ci with
          | none => (g, Except.error PyError.indexError)
          | some card =>
            if player = g.Leader then
              match pyGet g.currentTrick g.Leader with
              | none => (g, Except.error PyError.indexError)
              | some entry =>
                match entry with
                | some _ => (g, Except.error PyError.assertError)
                | none =>
                  let g1 := { g with
                    suitState := { g.suitState with
                      led := fun s => if s = card.Suit then true else g.suitState.led s },
                    ledSuit := some card.Suit }
                  moveFinish g1 player card_index
            else
              match g.ledSuit with
              | none => (g, Except.error PyError.attrError)
              | some ls =>
                if card.Suit = ls then moveFinish g player card_index
                else
                  match followSuitScan pr.hand with
                  | some e => (g, Except.error e)
                  | none => moveFinish g player card_index
      else (g, Except.error PyError.assertError)
  else (g, Except.error PyError.assertError)

/-- The trick-cell resets and round advance at the end of Blackout.postRound:
reset the two currentTrick cells addressed by the (new) leader and dealer,
advance the round number, then increment the trick count while the round
number is at most maxTricks and decrement it afterwards, and assert that the
trick count has not reached 0 (one call too many: the game has ended). -/
def postRoundTrick (g6 : Blackout) : Blackout × Except PyError Unit :=
  match pySet g6.currentTrick g6.Leader none with
  | none => (g6, Except.error PyError.indexError)
  | some ct1 =>
    match pySet ct1 g6.Dealer none with
    | none => ({ g6 with currentTrick := ct1 }, Except.error PyError.indexError)
    | some ct2 =>
      let g7 := { g6 with currentTrick := ct2 }
      let g8 := { g7 with Round := g7.Round + 1 }
      let g9 := if g8.Round > g8.maxTricks
                then { g8 with numTricks := g8.numTricks - 1 }
                else { g8 with numTricks := g8.numTricks + 1 }
      if g9.numTricks = 0 then (g9, Except.error PyError.assertError)
      else (g9, Except.ok ())

/-- The tail of Blackout.postRound from the hand-clearing loop onwards: clear
every player's hand and advance the dealer; the source then sets Leader to
the new Dealer and Bidder to that Leader, so all three become the
incremented dealer. Continues with postRoundTrick. -/
def postRoundRest (g2 : Blackout) : Blackout × Except PyError Unit :=
  postRoundTrick { g2 with
    Player := g2.Player.map fun p : PlayerRec => { p with hand := [] }
    Dealer := g2.circInc g2.Dealer
    Leader := g2.circInc g2.Dealer
    Bidder := g2.circInc g2.Dealer }

/-- Embedding of Blackout.postRound. The source first clears the trump flag of
self.trump (AttributeError when no deal has happened) and then the led flag of
self.led - an attribute that is never assigned anywhere in the class, so this
line always raises AttributeError. The remainder, postRoundRest, is
translated for completeness although it is unreachable. -/
def Blackout.postRound (g : Blackout) : Blackout × Except PyError Unit :=
  match g.trump with
  | none => (g, Except.error PyError.attrError)
  | some t =>
    let g1 := { g with suitState := { g.suitState with
      trump := fun s => if s = t then false else g.suitState.trump s } }
    match g1.led with
    | none => (g1, Except.error PyError.attrError)
    | some l =>
      let g2 := { g1 with suitState := { g1.suitState with
        led := fun s => if s = l then false else g1.suitState.led s } }
      postRoundRest g2

/-- Index 0 is valid for a nonempty Python list. -/
theorem pyIdx_zero (len : Nat) (h : 0 < len) : pyIdx len 0 = some 0 := by
  unfold pyIdx
  rw [if_pos (by omega : (0 : Int) ≤ 0), if_pos (by exact_mod_cast h : (0 : Int) < (len : Int))]
  rfl

/-- Index -1 addresses the last element of a nonempty Python list. -/
theorem pyIdx_neg_one (len : Nat) (h : 0 < len) : pyIdx len (-1) = some (len - 1) := by
  unfold pyIdx
  rw [if_neg (by omega : ¬(0 : Int) ≤ -1), if_pos (by omega : (0 : Int) ≤ -1 + (len : Int))]
  congr 1
  omega

/-- Writing at index 0 of a nonempty Python list. -/
theorem pySet_zero {α : Type} (l : List α) (x : α) (h : 0 < l.length) :
    pySet l 0 x = some (l.set 0 x) := by
  unfold pySet
  rw [pyIdx_zero l.length h]
  rfl

/-- Writing at index -1 of a nonempty Python list. -/
theorem pySet_neg_one {α : Type} (l : List α) (x : α) (h : 0 < l.length) :
    pySet l (-1) x = some (l.set (l.length - 1) x) := by
  unfold pySet
  rw [pyIdx_neg_one l.length h]
  rfl

/-- The currentTrick list the constructor builds: list(range(numPlayers)) with
the cells 0 and -1 overwritten by None. -/
def initTrick (n : Int) : List (Option Int) :=
  (((List.range n.toNat).map fun i => some (Int.ofNat i)).set 0 none).set
    (n.toNat - 1) none

/-- For numPlayers ≥ 1 and maxTricks in the asserted range the constructor
succeeds and returns exactly this game state. -/
theorem init_eq (n m : Int) (hn : 1 ≤ n) (hm : 0 < m ∧ m < 14) :
    Blackout.init n m = Except.ok
      { numPlayers := n,
        maxTricks := if n * m > 52 then 52 / n else m,
        Round := 1, Dealer := 0, Bidder := 1, Current := 1, Leader := 1,
        numTricks := 1, currentTrick := initTrick n, Deck := deckList,
        Player := List.replicate n.toNat
          { hand := [], bids := [], tricks := [], points := [], bid := none },
        TrumpCard := none, trump := none, ledSuit := none, led := none,
        suitState := { trump := fun _ => false, led := fun _ => false } } := by
  have h0 : 0 < ((List.range n.toNat).map fun i =>
      (some (Int.ofNat i) : Option Int)).length := by
    rw [List.length_map, List.length_range]
    omega
  have h1 : 0 < (((List.range n.toNat).map fun i =>
      (some (Int.ofNat i) : Option Int)).set 0 none).length := by
    rw [List.length_set]
    exact h0
  simp only [Blackout.init, if_pos hm, pySet_zero _ _ h0, pySet_neg_one _ _ h1,
    List.length_set, List.length_map, List.length_range, initTrick]

/-- The maxTricks clamp of the constructor computes min(maxTricks,
52 / numPlayers) for numPlayers ≥ 1. -/
theorem clamp_eq_min (n m : Int) (hn : 1 ≤ n) (hm : 0 < m) :
    (if n * m > 52 then 52 / n else m) = min m (52 / n) := by
  split_ifs with h
  · have h1 : 52 / n ≤ m := by
      by_contra hc
      push_neg at hc
      have h2 : (m + 1) * n ≤ 52 := (Int.le_ediv_iff_mul_le (by omega)).mp (by omega)
      nlinarith
    exact (min_eq_right h1).symm
  · push_neg at h
    have h1 : m ≤ 52 / n := (Int.le_ediv_iff_mul_le (by omega)).mpr (by nlinarith)
    exact (min_eq_left h1).symm

/-- The clamped maxTricks keeps numPlayers * maxTricks within the deck. -/
theorem mul_min_le (n m : Int) (hn : 1 ≤ n) (hm : 0 < m) :
    n * min m (52 / n) ≤ 52 := by
  rcases le_total m (52 / n) with h | h
  · rw [min_eq_left h]
    have h2 : m * n ≤ 52 := (Int.le_ediv_iff_mul_le (by omega)).mp h
    nlinarith
  · rw [min_eq_right h]
    have h1 := Int.ediv_add_emod 52 n
    have h2 := Int.emod_nonneg 52 (by omega : n ≠ 0)
    linarith

/-- An Except value is a success. -/
def exceptIsOk {ε α : Type} : Except ε α → Bool
  | Except.ok _ => true
  | Except.error _ => false

/-- Claim C8 counterexample: constructing a game with numPlayers = 1, below
the claimed minimum of 2, succeeds: the constructor never validates
numPlayers, so construction does not fail for numPlayers < 2. -/
theorem init_one_player_succeeds : exceptIsOk (Blackout.init 1 7) = true := rfl

/-- Claim C8 (amended): construction fails exactly when maxTricks lies outside
[1, 13]; numPlayers is not validated (numPlayers = 1 constructs fine). For
numPlayers ≥ 1 the constructed game's maxTricks equals
min(requestedMaxTricks, 52 / numPlayers) so numPlayers * maxTricks ≤ 52. -/
theorem init_spec (n m : Int) (hn : 1 ≤ n) :
    (¬(0 < m ∧ m < 14) → Blackout.init n m = Except.error PyError.assertError)
    ∧ ((0 < m ∧ m < 14) → ∃ g, Blackout.init n m = Except.ok g
        ∧ g.maxTricks = min m (52 / n) ∧ n * g.maxTricks ≤ 52 ∧ g.numPlayers = n) := by
  constructor
  · intro h
    unfold Blackout.init
    rw [if_neg h]
  · intro hm
    refine ⟨_, init_eq n m hn hm, ?_, ?_, rfl⟩
    · show (if n * m > 52 then 52 / n else m) = min m (52 / n)
      exact clamp_eq_min n m hn hm.1
    · show n * (if n * m > 52 then 52 / n else m) ≤ 52
      rw [clamp_eq_min n m hn hm.1]
      exact mul_min_le n m hn hm.1

/-- Witness for init_spec at numPlayers = 5 and requested maxTricks = 13,
which the constructor clamps to 52 / 5 = 10. -/
theorem init_spec_witness :
    (1 : Int) ≤ 5 ∧
    ((¬((0 : Int) < 13 ∧ (13 : Int) < 14) →
        Blackout.init 5 13 = Except.error PyError.assertError)
     ∧ (((0 : Int) < 13 ∧ (13 : Int) < 14) → ∃ g, Blackout.init 5 13 = Except.ok g
         ∧ g.maxTricks = min 13 (52 / 5) ∧ 5 * g.maxTricks ≤ 52 ∧ g.numPlayers = 5)) :=
  ⟨by decide, init_spec 5 13 (by decide)⟩

/-- Claim C10: in Blackout.Bid the bid-range check precedes the turn-order
check: every call by a legal player id with an amount outside
[0, numTricks] returns the soft rejection False and leaves the game
unchanged, even when the caller is not the currently-expected bidder. -/
theorem bid_range_check_first (g : Blackout) (player bid : Int)
    (hp : 0 ≤ player ∧ player < g.numPlayers)
    (hb : bid < 0 ∨ bid > g.numTricks) :
    g.Bid player bid = (g, Except.ok false) := by
  unfold Blackout.Bid
  rw [if_pos hp, if_pos hb]

/-- Concrete two-player round-1 state just before the dealer bids: player 1
has already bid 1, the round has one trick, and the dealer (player 0) is the
expected bidder. -/
def gB : Blackout :=
  { numPlayers := 2, maxTricks := 7, Round := 1, Dealer := 0, Bidder := 0,
    Current := 1, Leader := 1, numTricks := 1,
    currentTrick := [none, none], Deck := deckList,
    Player := [{ hand := [], bids := [], tricks := [], points := [], bid := none },
               { hand := [], bids := [], tricks := [], points := [], bid := some 1 }],
    TrumpCard := none, trump := none, ledSuit := none, led := none,
    suitState := { trump := fun _ => false, led := fun _ => false } }

/-- Claim C3 (code bug): when the dealer bids 0 so that the total of all bids
equals the round's trick count, Blackout.Bid does not reject and leave the
state unchanged: it first records the bid in the dealer's player record and
then raises AttributeError reading the misspelled attribute self.numTrics. -/
theorem bid_dealer_hook_crash :
    gB.Bid 0 0 =
      ({ gB with
          Player := [{ hand := [], bids := [], tricks := [], points := [], bid := some 0 },
                     { hand := [], bids := [], tricks := [], points := [], bid := some 1 }] },
       Except.error PyError.attrError) := rfl

/-- Witness for bid_range_check_first: player 1, who is not the expected
bidder 0, bids 5 in a one-trick round; the bid is softly rejected with no
state change instead of failing the turn-order assertion. -/
theorem bid_range_check_first_witness :
    ((0 : Int) ≤ 1 ∧ (1 : Int) < gB.numPlayers) ∧
    ((5 : Int) < 0 ∨ (5 : Int) > gB.numTricks) ∧
    gB.Bid 1 5 = (gB, Except.ok false) :=
  ⟨by decide, by decide, bid_range_check_first gB 1 5 (by decide) (by decide)⟩

/-- Concrete mid-trick state: two players, player 0 led the seven of spades,
player 1 is to move holding the two of hearts (deck index 13) and the two of
spades (deck index 0). -/
def gM : Blackout :=
  { numPlayers := 2, maxTricks := 7, Round := 1, Dealer := 1, Bidder := 0,
    Current := 1, Leader := 0, numTricks := 1,
    currentTrick := [some 5, none], Deck := deckList,
    Player := [{ hand := [], bids := [], tricks := [], points := [], bid := some 0 },
               { hand := [13, 0], bids := [], tricks := [], points := [], bid := some 1 }],
    TrumpCard := some { Suit := Suit.Club, Rank := { rank := 2 } },
    trump := some Suit.Club, ledSuit := some Suit.Spade, led := none,
    suitState := { trump := fun s => decide (s = Suit.Club),
                   led := fun s => decide (s = Suit.Spade) } }

/-- Claim C2 (code bug): a non-leader who holds a card of the led suit and
plays an off-suit card does not get the claimed rejection: the follow-suit
loop raises AttributeError on its first iteration, because hand entries are
integer deck indices with no suit attribute, so Move never returns False
(the state is left unmutated only because the exception aborts the call). -/
theorem move_follow_suit_crash :
    gM.Move 1 0 = (gM, Except.error PyError.attrError) := rfl

/-- Concrete state of a 4-player game after round 1 was dealt and played:
trump was declared (spades) so the attribute self.trump exists, while
self.led was never assigned by any method. -/
def gP : Blackout :=
  { numPlayers := 4, maxTricks := 7, Round := 1, Dealer := 0, Bidder := 1,
    Current := 1, Leader := 1, numTricks := 1,
    currentTrick := [some 3, some 0, some 1, some 2], Deck := deckList,
    Player := [{ hand := [], bids := [], tricks := [], points := [], bid := some 0 },
               { hand := [], bids := [], tricks := [], points := [], bid := some 0 },
               { hand := [], bids := [], tricks := [], points := [], bid := some 0 },
               { hand := [], bids := [], tricks := [], points := [], bid := some 0 }],
    TrumpCard := some { Suit := Suit.Spade, Rank := { rank := 6 } },
    trump := some Suit.Spade, ledSuit := some Suit.Spade, led := none,
    suitState := { trump := fun s => decide (s = Suit.Spade),
                   led := fun s => decide (s = Suit.Spade) } }

/-- Claim C4 (code bug): the round-advance operation never produces the
claimed 1,2,...,7,...,1 schedule: its second statement reads self.led, an
attribute no method ever assigns, so postRound raises AttributeError and the
round number and trick count stay unchanged instead of advancing. -/
theorem postRound_crash_schedule :
    (gP.postRound).2 = Except.error PyError.attrError
    ∧ (gP.postRound).1.Round = 1 ∧ (gP.postRound).1.numTricks = 1 :=
  ⟨rfl, rfl, rfl⟩

/-- Claim C5 (code bug): the dealer never rotates: postRound raises
AttributeError reading the never-assigned attribute self.led before the
rotation statements run, leaving dealer, leader and bidder unchanged; and
the rotation code itself, were it reachable, sets leader and bidder to the
new dealer rather than to the player left of the dealer. -/
theorem postRound_crash_rotation :
    (gP.postRound).2 = Except.error PyError.attrError
    ∧ (gP.postRound).1.Dealer = 0 ∧ (gP.postRound).1.Leader = 1
    ∧ (gP.postRound).1.Bidder = 1 :=
  ⟨rfl, rfl, rfl, rfl⟩

/-- Claim C6 (code bug): dealing a fresh 4-player game (dealer 0, one trick)
with the identity shuffle gives the single dealt card to player 0 and nothing
to players 1, 2 and 3, instead of dealing one card to each player round-robin
starting at player 1: the source passes circGen(self.Dealer + 1,
self.numPlayers), swapping the declared (total, start) parameters of
circGen. -/
theorem deal_distribution_eval :
    (Blackout.init 4 7).map
      (fun g => ((g.Deal id).2, (g.Deal id).1.Player.map fun p => p.hand))
      = Except.ok (Except.ok (), [[0], [], [], []]) := rfl

/-- Claim C7 (code bug): after that same deal the number of dealt card
indices in all hands plus the one trump card is 2, not
numPlayers * trickCount + 1 = 5, because the swapped circGen arguments make
each dealing circuit cover only players 0..dealer. -/
theorem deal_completeness_eval :
    ((Blackout.init 4 7).map
      (fun g => (((g.Deal id).1.Player.map fun p => p.hand.length).sum + 1))
      = Except.ok 2)
    ∧ (2 : Nat) ≠ 4 * 1 + 1 :=
  ⟨rfl, by decide⟩
